import Mathlib

/-!
Shallow embedding of the CosmWasm `simple-option` contract
(`src/contract.rs`) and verification of its specification claims.

The contract keeps a single persisted `State` record (an option: collateral
locked by a creator, a counter offer, an expiry height).  Its entry points
are `init`, `handle_transfer`, `handle_execute`, `handle_burn` and
`query_config`.  Each handler is embedded as a pure function from the
stored record (an `Option State`, `none` when the record slot is empty)
and the call environment to the pair of (storage after the call, result).
The storage component of the pair tracks every `save`/`remove` the Rust
code performs, so that atomicity of errors is a provable statement rather
than a modelling artefact: an error is returned exactly where the Rust
code returns early, with whatever storage existed at that point.

Machine integers: `expires` and block heights are `u64` in the source;
none of the contract's code performs arithmetic on them (only `<=`, `<`
comparisons), so they are embedded as `Nat`.  Coin amounts (`Uint128`)
are likewise only compared for equality and embedded as `Nat`.
-/

/-- A coin, modelling `cosmwasm_std::Coin`: a denomination string and a
non-negative integer amount.  Rust `Vec<Coin>` equality (used by the
contract to compare funds) is element-wise and order-sensitive; it is
embedded as `List Coin` equality, which has the same semantics. -/
structure Coin where
  denom : String
  amount : Nat
deriving DecidableEq, Repr

/-- Modelled from the spec: the persisted option record (`State` in
`state.rs`, which is not under `src/`; its five fields are fixed by the
construction in `init` in `contract.rs` lines 18-24 and by §3 of the
spec). -/
structure State where
  creator : String
  owner : String
  collateral : List Coin
  counter_offer : List Coin
  expires : Nat
deriving DecidableEq, Repr

/-- The environment facts the host passes to every call:
`env.message.sender`, `env.message.sent_funds`, `env.block.height`,
`env.contract.address`. -/
structure Env where
  sender : String
  sent_funds : List Coin
  height : Nat
  contract_address : String
deriving DecidableEq, Repr

/-- The typed errors the contract returns.  The Rust code uses
`StdError::unauthorized()`, the storage layer's not-found error, and
`StdError::generic_err` with four distinct message strings; each distinct
error site becomes one constructor.  `fundMismatch` carries the expected
`counter_offer`, mirroring
`generic_err(format!("must send exact counter_offer: {:?}", state.counter_offer))`. -/
inductive ContractError where
  | notFound
  | invalidExpiry
  | unauthorized
  | expired
  | fundMismatch (expected : List Coin)
  | notYetExpired
  | unexpectedFunds
deriving DecidableEq, Repr

/-- A `BankMsg::Send` fund-transfer effect. -/
structure BankMsg where
  from_address : String
  to_address : String
  amount : List Coin
deriving DecidableEq, Repr

/-- A successful handler's response: the ordered fund-transfer effects and
the ordered `(key, value)` log entries (`HandleResponse` / `Context`). -/
structure HandleResponse where
  messages : List BankMsg
  log : List (String × String)
deriving DecidableEq, Repr

/-- `init` (`contract.rs` lines 9-29).  Fails with `invalidExpiry` when
`msg.expires <= env.block.height`; otherwise saves the freshly built
record and succeeds with no messages and no logs
(`InitResponse::default()`). -/
def init (storage : Option State) (env : Env) (counter_offer : List Coin)
    (expires : Nat) : Option State × Except ContractError HandleResponse :=
  if expires ≤ env.height then
    (storage, Except.error ContractError.invalidExpiry)
  else
    (some { creator := env.sender, owner := env.sender,
            collateral := env.sent_funds, counter_offer := counter_offer,
            expires := expires },
     Except.ok { messages := [], log := [] })

/-- `handle_transfer` (`contract.rs` lines 43-62).  Loads the record
(not-found error when the slot is empty), requires the sender to be the
owner, then saves the record with the new owner and logs the action and
the new owner. -/
def handle_transfer (storage : Option State) (env : Env)
    (recipient : String) : Option State × Except ContractError HandleResponse :=
  match storage with
  | none => (none, Except.error ContractError.notFound)
  | some state =>
    if env.sender ≠ state.owner then
      (some state, Except.error ContractError.unauthorized)
    else
      (some { state with owner := recipient },
       Except.ok { messages := [],
                   log := [("action", "transfer"), ("owner", recipient)] })

/-- `handle_execute` (`contract.rs` lines 64-107).  Loads the record,
then checks in order: sender is owner (else unauthorized), height below
`expires` (else expired), sent funds equal to `counter_offer` as lists
(else fundMismatch).  On success: pays the counter offer to the creator,
then the collateral to the owner, removes the record and logs the
action. -/
def handle_execute (storage : Option State) (env : Env) :
    Option State × Except ContractError HandleResponse :=
  match storage with
  | none => (none, Except.error ContractError.notFound)
  | some state =>
    if env.sender ≠ state.owner then
      (some state, Except.error ContractError.unauthorized)
    else if state.expires ≤ env.height then
      (some state, Except.error ContractError.expired)
    else if env.sent_funds ≠ state.counter_offer then
      (some state, Except.error (ContractError.fundMismatch state.counter_offer))
    else
      (none,
       Except.ok { messages :=
                     [ { from_address := env.contract_address,
                         to_address := state.creator,
                         amount := state.counter_offer },
                       { from_address := env.contract_address,
                         to_address := state.owner,
                         amount := state.collateral } ],
                   log := [("action", "execute")] })

/-- `handle_burn` (`contract.rs` lines 109-137).  Loads the record, then
checks in order: height at least `expires` (else notYetExpired), no sent
funds (else unexpectedFunds).  The sender is never inspected.  On
success: pays the collateral to the creator, removes the record and logs
the action. -/
def handle_burn (storage : Option State) (env : Env) :
    Option State × Except ContractError HandleResponse :=
  match storage with
  | none => (none, Except.error ContractError.notFound)
  | some state =>
    if env.height < state.expires then
      (some state, Except.error ContractError.notYetExpired)
    else if env.sent_funds ≠ [] then
      (some state, Except.error ContractError.unexpectedFunds)
    else
      (none,
       Except.ok { messages :=
                     [ { from_address := env.contract_address,
                         to_address := state.creator,
                         amount := state.collateral } ],
                   log := [("action", "burn")] })

/-- `query_config` (`contract.rs` lines 148-153).  Pure read: loads the
record and returns it verbatim; not-found error when the slot is empty.
It takes the storage by shared reference and emits nothing. -/
def query_config (storage : Option State) : Except ContractError State :=
  match storage with
  | none => Except.error ContractError.notFound
  | some state => Except.ok state

/-- The timing guard `execute` enforces: the negation of its failure
condition `env.block.height >= state.expires` (`contract.rs` line 75). -/
def executeTimingGuard (state : State) (height : Nat) : Bool :=
  !(decide (state.expires ≤ height))

/-- The timing guard `burn` enforces: the negation of its failure
condition `env.block.height < state.expires` (`contract.rs` line 115). -/
def burnTimingGuard (state : State) (height : Nat) : Bool :=
  !(decide (height < state.expires))

/-- The spec §8 scenario record after the transfer to bob: created by
alice at height 100 with collateral 1000 earth, counter offer 500 token,
expiry 200. -/
def exampleState : State :=
  { creator := "alice", owner := "bob",
    collateral := [Coin.mk "earth" 1000],
    counter_offer := [Coin.mk "token" 500],
    expires := 200 }

/-- Environment for the scenario's successful execute: bob calls at
height 150 with exactly the counter offer attached. -/
def envExecOk : Env :=
  { sender := "bob", sent_funds := [Coin.mk "token" 500],
    height := 150, contract_address := "contract" }

/-- Environment for the scenario's burn: anyone calls at height 250 with
no funds attached. -/
def envBurnOk : Env :=
  { sender := "anyone", sent_funds := [],
    height := 250, contract_address := "contract" }

/-- The response the scenario's execute produces: pay 500 token to alice,
then 1000 earth to bob, and log the action. -/
def exampleExecResponse : HandleResponse :=
  { messages := [ { from_address := "contract", to_address := "alice",
                    amount := [Coin.mk "token" 500] },
                  { from_address := "contract", to_address := "bob",
                    amount := [Coin.mk "earth" 1000] } ],
    log := [("action", "execute")] }

/-- A record whose counter offer lists two denominations, used to exhibit
the order-sensitivity of the fund comparison. -/
def twoCoinState : State :=
  { creator := "alice", owner := "alice",
    collateral := [Coin.mk "earth" 1000],
    counter_offer := [Coin.mk "atom" 1, Coin.mk "btc" 2],
    expires := 10 }

/-- The owner calling before expiry with the counter offer's coins listed
in the opposite order. -/
def envReordered : Env :=
  { sender := "alice", sent_funds := [Coin.mk "btc" 2, Coin.mk "atom" 1],
    height := 5, contract_address := "contract" }

/-- C1 counterexample: the owner calls `execute` before expiry with funds
that are a permutation of the stored counter offer (equal as order-independent
multisets) but listed in a different order, and the call fails with
`fundMismatch` instead of succeeding.  The Rust comparison
`env.message.sent_funds != state.counter_offer` is `Vec` equality, which
is order-sensitive, so the claimed order-independent acceptance is false. -/
theorem execute_rejects_reordered_funds :
    List.Perm envReordered.sent_funds twoCoinState.counter_offer ∧
    envReordered.sender = twoCoinState.owner ∧
    envReordered.height < twoCoinState.expires ∧
    (handle_execute (some twoCoinState) envReordered).2 =
      Except.error (ContractError.fundMismatch twoCoinState.counter_offer) := by
  refine ⟨?_, by decide, by decide, by rfl⟩
  decide

/-- C1 (amended): when the caller is the owner and the option is not
expired, `execute` succeeds if and only if the sent funds are exactly
equal, as an ordered list (same denominations and amounts in the same
order), to the stored counter offer; any list inequality — a deficit, an
excess, an extra denomination, or a mere reordering of the same coins —
fails with a `fundMismatch` error carrying the expected counter offer. -/
theorem execute_fund_exactness (state : State) (env : Env)
    (hown : env.sender = state.owner) (hexp : env.height < state.expires) :
    ((∃ r, (handle_execute (some state) env).2 = Except.ok r) ↔
      env.sent_funds = state.counter_offer) ∧
    (env.sent_funds ≠ state.counter_offer →
      (handle_execute (some state) env).2 =
        Except.error (ContractError.fundMismatch state.counter_offer)) := by
  have hne : ¬ state.expires ≤ env.height := Nat.not_le.mpr hexp
  constructor
  · constructor
    · rintro ⟨r, hr⟩
      by_cases hf : env.sent_funds = state.counter_offer
      · exact hf
      · simp [handle_execute, hown, hne, hf] at hr
    · intro hf
      refine ⟨{ messages :=
                  [ { from_address := env.contract_address,
                      to_address := state.creator,
                      amount := state.counter_offer },
                    { from_address := env.contract_address,
                      to_address := state.owner,
                      amount := state.collateral } ],
                log := [("action", "execute")] }, ?_⟩
      simp [handle_execute, hown, hne, hf]
  · intro hf
    simp [handle_execute, hown, hne, hf]

/-- C1 witness: the amended fund-exactness theorem instantiated at the
spec scenario (bob executing at height 150 with exactly 500 token). -/
theorem execute_fund_exactness_witness :
    envExecOk.sender = exampleState.owner ∧
    envExecOk.height < exampleState.expires ∧
    (((∃ r, (handle_execute (some exampleState) envExecOk).2 = Except.ok r) ↔
       envExecOk.sent_funds = exampleState.counter_offer) ∧
     (envExecOk.sent_funds ≠ exampleState.counter_offer →
       (handle_execute (some exampleState) envExecOk).2 =
         Except.error (ContractError.fundMismatch exampleState.counter_offer))) :=
  ⟨by decide, by decide,
   execute_fund_exactness exampleState envExecOk (by decide) (by decide)⟩

/-- C2: `init` fails with `invalidExpiry` exactly when the requested
expiry is at most the current block height, leaving storage untouched;
when the expiry is strictly greater it succeeds, and the saved record has
collateral equal to the funds sent with the call, the requested counter
offer and expiry, and creator and owner both equal to the sender. -/
theorem init_spec (storage : Option State) (env : Env)
    (counter_offer : List Coin) (expires : Nat) :
    (expires ≤ env.height →
      init storage env counter_offer expires =
        (storage, Except.error ContractError.invalidExpiry)) ∧
    (env.height < expires →
      init storage env counter_offer expires =
        (some { creator := env.sender, owner := env.sender,
                collateral := env.sent_funds, counter_offer := counter_offer,
                expires := expires },
         Except.ok { messages := [], log := [] })) := by
  constructor
  · intro h
    simp [init, h]
  · intro h
    simp [init, Nat.not_le.mpr h]

/-- C3: whenever `execute` succeeds, the record is deleted and the
response consists of exactly two fund transfers in this order — the
counter offer from the contract to the creator, then the collateral from
the contract to the owner — together with the single log entry
`("action", "execute")`. -/
theorem execute_success_effects (state : State) (env : Env)
    (r : HandleResponse)
    (h : (handle_execute (some state) env).2 = Except.ok r) :
    handle_execute (some state) env =
      (none,
       Except.ok { messages :=
                     [ { from_address := env.contract_address,
                         to_address := state.creator,
                         amount := state.counter_offer },
                       { from_address := env.contract_address,
                         to_address := state.owner,
                         amount := state.collateral } ],
                   log := [("action", "execute")] }) := by
  by_cases h1 : env.sender = state.owner
  · by_cases h2 : state.expires ≤ env.height
    · simp [handle_execute, h1, h2] at h
    · by_cases h3 : env.sent_funds = state.counter_offer
      · simp [handle_execute, h1, h2, h3]
      · simp [handle_execute, h1, h2, h3] at h
  · simp [handle_execute, h1] at h

/-- C3 witness: the spec scenario's execute (bob at height 150 sending
500 token) succeeds, deletes the record and pays alice then bob. -/
theorem execute_success_effects_witness :
    (handle_execute (some exampleState) envExecOk).2 =
      Except.ok exampleExecResponse ∧
    handle_execute (some exampleState) envExecOk =
      (none,
       Except.ok { messages :=
                     [ { from_address := envExecOk.contract_address,
                         to_address := exampleState.creator,
                         amount := exampleState.counter_offer },
                       { from_address := envExecOk.contract_address,
                         to_address := exampleState.owner,
                         amount := exampleState.collateral } ],
                   log := [("action", "execute")] }) :=
  ⟨by rfl,
   execute_success_effects exampleState envExecOk exampleExecResponse (by rfl)⟩

/-- C4: `burn` never inspects the caller; it succeeds exactly when the
height has reached `expires` and no funds are attached.  It fails with
`notYetExpired` at any height below `expires` (that check comes first)
and with `unexpectedFunds` at or after expiry when funds are attached.
On success the record is removed and the single fund transfer pays the
collateral from the contract to the creator, with a burn log entry. -/
theorem burn_spec (state : State) (env : Env) :
    ((∃ r, (handle_burn (some state) env).2 = Except.ok r) ↔
      (state.expires ≤ env.height ∧ env.sent_funds = [])) ∧
    (env.height < state.expires →
      (handle_burn (some state) env).2 =
        Except.error ContractError.notYetExpired) ∧
    (state.expires ≤ env.height → env.sent_funds ≠ [] →
      (handle_burn (some state) env).2 =
        Except.error ContractError.unexpectedFunds) ∧
    (state.expires ≤ env.height → env.sent_funds = [] →
      handle_burn (some state) env =
        (none,
         Except.ok { messages :=
                       [ { from_address := env.contract_address,
                           to_address := state.creator,
                           amount := state.collateral } ],
                     log := [("action", "burn")] })) := by
  refine ⟨⟨?_, ?_⟩, ?_, ?_, ?_⟩
  · rintro ⟨r, hr⟩
    by_cases h1 : env.height < state.expires
    · simp [handle_burn, h1] at hr
    · by_cases h2 : env.sent_funds = []
      · exact ⟨Nat.not_lt.mp h1, h2⟩
      · simp [handle_burn, h1, h2] at hr
  · rintro ⟨h1, h2⟩
    exact ⟨{ messages := [ { from_address := env.contract_address,
                             to_address := state.creator,
                             amount := state.collateral } ],
             log := [("action", "burn")] },
           by simp [handle_burn, Nat.not_lt.mpr h1, h2]⟩
  · intro h1
    simp [handle_burn, h1]
  · intro h1 h2
    simp [handle_burn, Nat.not_lt.mpr h1, h2]
  · intro h1 h2
    simp [handle_burn, Nat.not_lt.mpr h1, h2]

/-- C5: for a fixed record the two timing guards partition the heights:
at every height exactly one of the execute guard (height strictly below
`expires`) and the burn guard (height at least `expires`) holds, and
consequently `execute` and `burn` can never both succeed in the same
environment. -/
theorem execute_burn_mutual_exclusion (state : State) (env : Env) :
    (executeTimingGuard state env.height =
      !(burnTimingGuard state env.height)) ∧
    ¬ ((∃ r, (handle_execute (some state) env).2 = Except.ok r) ∧
       (∃ r, (handle_burn (some state) env).2 = Except.ok r)) := by
  constructor
  · by_cases h : state.expires ≤ env.height
    · simp [executeTimingGuard, burnTimingGuard, h, Nat.not_lt.mpr h]
    · simp [executeTimingGuard, burnTimingGuard, h, Nat.not_le.mp h]
  · rintro ⟨⟨r1, h1⟩, ⟨r2, h2⟩⟩
    by_cases h : state.expires ≤ env.height
    · by_cases h0 : env.sender = state.owner
      · simp [handle_execute, h0, h] at h1
      · simp [handle_execute, h0] at h1
    · simp [handle_burn, Nat.not_le.mp h] at h2

/-- C6: `transfer` fails with `unauthorized` (leaving storage unchanged)
whenever the requester is not the current owner; when the requester is
the owner it succeeds, and the saved record is the input record with only
`owner` replaced by the recipient — creator, collateral, counter offer
and expiry all unchanged — with no fund effects and the log entries
`("action","transfer")` and `("owner", recipient)`. -/
theorem transfer_spec (state : State) (env : Env) (recipient : String) :
    (env.sender ≠ state.owner →
      handle_transfer (some state) env recipient =
        (some state, Except.error ContractError.unauthorized)) ∧
    (env.sender = state.owner →
      handle_transfer (some state) env recipient =
        (some { creator := state.creator, owner := recipient,
                collateral := state.collateral,
                counter_offer := state.counter_offer,
                expires := state.expires },
         Except.ok { messages := [],
                     log := [("action", "transfer"),
                             ("owner", recipient)] })) := by
  constructor
  · intro h
    simp [handle_transfer, h]
  · intro h
    simp [handle_transfer, h]

/-- C7: `execute` checks its preconditions in a fixed order and the first
failing check determines the error: a non-owner always receives
`unauthorized` regardless of expiry and funds; the owner at or past
expiry always receives `expired` regardless of funds; the owner before
expiry with funds unequal to the counter offer receives `fundMismatch`. -/
theorem execute_check_order (state : State) (env : Env) :
    (env.sender ≠ state.owner →
      (handle_execute (some state) env).2 =
        Except.error ContractError.unauthorized) ∧
    (env.sender = state.owner → state.expires ≤ env.height →
      (handle_execute (some state) env).2 =
        Except.error ContractError.expired) ∧
    (env.sender = state.owner → env.height < state.expires →
      env.sent_funds ≠ state.counter_offer →
      (handle_execute (some state) env).2 =
        Except.error (ContractError.fundMismatch state.counter_offer)) := by
  refine ⟨?_, ?_, ?_⟩
  · intro h
    simp [handle_execute, h]
  · intro h1 h2
    simp [handle_execute, h1, h2]
  · intro h1 h2 h3
    simp [handle_execute, h1, Nat.not_le.mpr h2, h3]

/-- C8: error atomicity.  Whenever `init`, `transfer`, `execute` or
`burn` returns an error, the storage it returns is exactly the storage it
was given: no save or delete has taken effect.  (In the embedding a
response — fund effects and log entries — exists only in the `ok` case,
so an erroring call produces no effects and no logs by construction,
mirroring the Rust early returns, all of which precede every
`save`/`remove` and every `add_message`/`add_log`.) -/
theorem error_atomicity (storage : Option State) (env : Env)
    (recipient : String) (counter_offer : List Coin) (expires : Nat)
    (e : ContractError) :
    ((init storage env counter_offer expires).2 = Except.error e →
      (init storage env counter_offer expires).1 = storage) ∧
    ((handle_transfer storage env recipient).2 = Except.error e →
      (handle_transfer storage env recipient).1 = storage) ∧
    ((handle_execute storage env).2 = Except.error e →
      (handle_execute storage env).1 = storage) ∧
    ((handle_burn storage env).2 = Except.error e →
      (handle_burn storage env).1 = storage) := by
  refine ⟨?_, ?_, ?_, ?_⟩
  · intro he
    by_cases h : expires ≤ env.height
    · simp [init, h]
    · simp [init, h] at he
  · intro he
    cases storage with
    | none => rfl
    | some state =>
      by_cases h : env.sender = state.owner
      · simp [handle_transfer, h] at he
      · simp [handle_transfer, h]
  · intro he
    cases storage with
    | none => rfl
    | some state =>
      by_cases h1 : env.sender = state.owner
      · by_cases h2 : state.expires ≤ env.height
        · simp [handle_execute, h1, h2]
        · by_cases h3 : env.sent_funds = state.counter_offer
          · simp [handle_execute, h1, h2, h3] at he
          · simp [handle_execute, h1, h2, h3]
      · simp [handle_execute, h1]
  · intro he
    cases storage with
    | none => rfl
    | some state =>
      by_cases h1 : env.height < state.expires
      · simp [handle_burn, h1]
      · by_cases h2 : env.sent_funds = []
        · simp [handle_burn, h1, h2] at he
        · simp [handle_burn, h1, h2]

/-- C9: a successful `execute` or `burn` leaves the record slot empty;
against an empty slot the config query and every transition fail with
`notFound`; and while a record exists the config query returns it
verbatim (the query reads the storage immutably and produces no effects
and no logs). -/
theorem deletion_finality (state : State) (env env2 : Env)
    (recipient : String) :
    ((∃ r, (handle_execute (some state) env).2 = Except.ok r) →
      (handle_execute (some state) env).1 = none) ∧
    ((∃ r, (handle_burn (some state) env).2 = Except.ok r) →
      (handle_burn (some state) env).1 = none) ∧
    query_config none = Except.error ContractError.notFound ∧
    handle_transfer none env2 recipient =
      (none, Except.error ContractError.notFound) ∧
    handle_execute none env2 = (none, Except.error ContractError.notFound) ∧
    handle_burn none env2 = (none, Except.error ContractError.notFound) ∧
    query_config (some state) = Except.ok state := by
  refine ⟨?_, ?_, rfl, rfl, rfl, rfl, rfl⟩
  · rintro ⟨r, hr⟩
    by_cases h1 : env.sender = state.owner
    · by_cases h2 : state.expires ≤ env.height
      · simp [handle_execute, h1, h2] at hr
      · by_cases h3 : env.sent_funds = state.counter_offer
        · simp [handle_execute, h1, h2, h3]
        · simp [handle_execute, h1, h2, h3] at hr
    · simp [handle_execute, h1] at hr
  · rintro ⟨r, hr⟩
    by_cases h1 : env.height < state.expires
    · simp [handle_burn, h1] at hr
    · by_cases h2 : env.sent_funds = []
      · simp [handle_burn, h1, h2]
      · simp [handle_burn, h1, h2] at hr

/-- C10: `transfer` performs no expiry or timing check — the block height
is never read.  For every record and every environment whose sender is
the current owner, including any height at or past `expires`, the
transfer succeeds and replaces the owner by the recipient. -/
theorem transfer_ignores_expiry (state : State) (env : Env)
    (recipient : String) (hown : env.sender = state.owner) :
    handle_transfer (some state) env recipient =
      (some { state with owner := recipient },
       Except.ok { messages := [],
                   log := [("action", "transfer"),
                           ("owner", recipient)] }) := by
  simp [handle_transfer, hown]

/-- C10 witness: at height 250, past the example record's expiry 200, the
current owner bob still transfers the option to carl successfully. -/
theorem transfer_ignores_expiry_witness :
    exampleState.expires ≤ (250 : Nat) ∧
    handle_transfer (some exampleState)
        { sender := "bob", sent_funds := [], height := 250,
          contract_address := "contract" } "carl" =
      (some { exampleState with owner := "carl" },
       Except.ok { messages := [],
                   log := [("action", "transfer"), ("owner", "carl")] }) :=
  ⟨by decide,
   transfer_ignores_expiry exampleState
     { sender := "bob", sent_funds := [], height := 250,
       contract_address := "contract" } "carl" (by decide)⟩
